import Mathlib

/-!
Shallow embedding of the simclient repository (simclient/client.py,
simclient/policy.py): the ARN model and parser, the policy merger, the
PolicyContainer aggregation logic, the SimulatedClient action dispatch,
and the region-availability probe.  Python strings are modelled as Lean
strings; Python None for an optional string field is Option.none; Python
exceptions are modelled with explicit error sums.
-/

deriving instance DecidableEq for Except

/-- Python runtime errors that the embedded code can raise. -/
inductive PyError where
  | indexError
  | typeError
  | keyError
deriving DecidableEq

/-- Python str.split(sep) on a list of characters: splitting the empty
string yields one empty part, and separators delimit possibly empty parts. -/
def splitOnChar (c : Char) : List Char → List (List Char)
  | [] => [[]]
  | x :: xs =>
    if x = c then [] :: splitOnChar c xs
    else
      match splitOnChar c xs with
      | h :: t => (x :: h) :: t
      | [] => [[x]]

/-- Python s.split(sep) for a one-character separator. -/
def pySplit (sep : Char) (s : String) : List String :=
  (splitOnChar sep s.toList).map String.mk

/-- Python (c in s) membership test for a single character. -/
def pyContains (s : String) (c : Char) : Bool :=
  s.toList.contains c

/-- Python s.lower() (ASCII lowering suffices for the inputs involved). -/
def pyLower (s : String) : String :=
  String.mk (s.toList.map Char.toLower)

/-- Python sep.join(parts). -/
def pyJoin (sep : String) : List String → String
  | [] => ""
  | [x] => x
  | x :: y :: xs => x ++ sep ++ pyJoin sep (y :: xs)

/-- Python truthiness of an optional string: None and the empty string are
falsy. -/
def pyTruthy : Option String → Bool
  | none => false
  | some s => s != ""

/-- Python f-string interpolation of an optional string field: None is
rendered as the text None, not as an empty segment. -/
def pyStrOpt : Option String → String
  | none => "None"
  | some s => s

/-- AWS ARN dataclass (client.py).  All seven fields default to None.
The first field is named prefix in the source. -/
structure ARN where
  pfx : Option String := none
  partition : Option String := none
  service : Option String := none
  region : Option String := none
  account_id : Option String := none
  resource_type : Option String := none
  resource_id : Option String := none
deriving DecidableEq

/-- split_arn_string (client.py lines 40-50): split an ARN string on colons;
with exactly 6 parts and a slash in the 6th, lower-case the resource type and
append the rejoined remainder as a 7th part; with exactly 6 parts and no
slash, the source assigns to index 6 of the 6-element list, which raises
IndexError; with any other part count the list is returned unchanged. -/
def split_arn_string (arn : String) : Except PyError (List String) :=
  if (pySplit ':' arn).length = 6 then
    if pyContains ((pySplit ':' arn).getD 5 "") '/' then
      Except.ok ((pySplit ':' arn).take 5
        ++ [pyLower ((pySplit '/' ((pySplit ':' arn).getD 5 "")).headD "")]
        ++ [pyJoin "/" (pySplit '/' ((pySplit ':' arn).getD 5 "")).tail])
    else
      Except.error PyError.indexError
  else
    Except.ok (pySplit ':' arn)

/-- Positional construction of the ARN dataclass from a parts list
(cls(*parts)): missing trailing arguments keep their None defaults. -/
def arn_from_parts (parts : List String) : ARN :=
  { pfx := parts.get? 0
  , partition := parts.get? 1
  , service := parts.get? 2
  , region := parts.get? 3
  , account_id := parts.get? 4
  , resource_type := parts.get? 5
  , resource_id := parts.get? 6 }

/-- ARN.from_string (client.py lines 65-67): cls(*split_arn_string(arn)).
More than 7 positional arguments would raise TypeError; 7 or fewer populate
the fields in order. -/
def ARN.from_string (arn : String) : Except PyError ARN :=
  match split_arn_string arn with
  | Except.error e => Except.error e
  | Except.ok parts =>
    if parts.length ≤ 7 then Except.ok (arn_from_parts parts)
    else Except.error PyError.typeError

/-- ARN.__str__ (client.py lines 69-70): the f-string
prefix:partition:service:region:account_id:resource_type/resource_id, where
a None field is interpolated as the text None. -/
def ARN.toStr (a : ARN) : String :=
  pyStrOpt a.pfx ++ ":" ++ pyStrOpt a.partition ++ ":" ++ pyStrOpt a.service ++ ":"
    ++ pyStrOpt a.region ++ ":" ++ pyStrOpt a.account_id ++ ":"
    ++ pyStrOpt a.resource_type ++ "/" ++ pyStrOpt a.resource_id

/-- Spec-side renderer, following the words of the spec: segments in the
order prefix, partition, service, region, account id, resource type slash
resource id, with every unset field rendered as the given placeholder (the
spec asks for the empty segment, i.e. placeholder empty). -/
def ARN.spec_render (ph : String) (a : ARN) : String :=
  a.pfx.getD ph ++ ":" ++ a.partition.getD ph ++ ":" ++ a.service.getD ph ++ ":"
    ++ a.region.getD ph ++ ":" ++ a.account_id.getD ph ++ ":"
    ++ a.resource_type.getD ph ++ "/" ++ a.resource_id.getD ph

/-- An IAM policy document: a Version string and an ordered statement list.
Statements are opaque to this system, so they are a type parameter. -/
structure PolicyDoc (α : Type) where
  Version : String
  Statement : List α
deriving DecidableEq

/-- An input to the merger: either an already structured document or
serialized JSON text that json.loads turns into a document. -/
inductive PolicyInput (α : Type) where
  | struct : PolicyDoc α → PolicyInput α
  | text : String → PolicyInput α
deriving DecidableEq

/-- The per-document normalization inside merge_policy_dicts: a string input
goes through json.loads (modelled as an arbitrary decoder argument), a dict
input is used as is. -/
def normalize_policy {α : Type} (jsonLoads : String → PolicyDoc α) :
    PolicyInput α → PolicyDoc α
  | PolicyInput.struct d => d
  | PolicyInput.text s => jsonLoads s

/-- One iteration of the merge loop: extend the accumulator's Statement list
with the current document's statements. -/
def merge_step {α : Type} (jsonLoads : String → PolicyDoc α)
    (merged : PolicyDoc α) (p : PolicyInput α) : PolicyDoc α :=
  { merged with Statement := merged.Statement ++ (normalize_policy jsonLoads p).Statement }

/-- merge_policy_dicts (policy.py lines 32-40): start from the fixed document
with Version 2012-10-17 and no statements and fold the inputs in order. -/
def merge_policy_dicts {α : Type} (jsonLoads : String → PolicyDoc α)
    (policies : List (PolicyInput α)) : PolicyDoc α :=
  policies.foldl (merge_step jsonLoads) { Version := "2012-10-17", Statement := [] }

/-- An IAM group as seen by get_policy_documents_for_resource: its attached
policy documents and its inline policy documents, already fetched. -/
structure IAMGroup (α : Type) where
  attached_policies : List (PolicyDoc α)
  inline_policies : List (PolicyDoc α)
deriving DecidableEq

/-- An IAM user or role resource: attached and inline policy documents, the
group collection when the principal type has one (users do, roles do not,
matching the hasattr check in the source), and the permission boundary
document when one is set. -/
structure IAMPrincipal (α : Type) where
  attached_policies : List (PolicyDoc α)
  inline_policies : List (PolicyDoc α)
  groups : Option (List (IAMGroup α))
  permissions_boundary : Option (PolicyDoc α)
deriving DecidableEq

/-- get_policy_documents_for_resource (policy.py lines 43-56) applied to a
group: attached policy documents first, then inline policy documents. -/
def get_policy_documents_for_group {α : Type} (g : IAMGroup α) : List (PolicyDoc α) :=
  g.attached_policies ++ g.inline_policies

/-- get_policy_documents_for_resource (policy.py lines 43-56) applied to a
user or role: attached policy documents first, then inline policy documents. -/
def get_policy_documents_for_resource {α : Type} (r : IAMPrincipal α) : List (PolicyDoc α) :=
  r.attached_policies ++ r.inline_policies

/-- The list that the loop body of get_group_policy_documents_for_resource
accumulates into its local variable: for a principal with a group collection,
each group's policy documents in order. -/
def collected_group_policies {α : Type} (r : IAMPrincipal α) : List (PolicyDoc α) :=
  match r.groups with
  | some gs => gs.foldl (fun acc g => acc ++ get_policy_documents_for_group g) []
  | none => []

/-- get_group_policy_documents_for_resource (policy.py lines 59-67): the
source accumulates the groups' documents into a local list but its return
statement returns the empty list, so the accumulated list is discarded. -/
def get_group_policy_documents_for_resource {α : Type} (r : IAMPrincipal α) :
    List (PolicyDoc α) :=
  let _policies := collected_group_policies r
  ([] : List (PolicyDoc α))

/-- The external collaborators that PolicyContainer.__init__ consults:
arn_to_iam_resource, get_scps_for_account (whose account argument is
whatever value the caller passes, possibly None), and the caller's own
account number from STS. -/
structure Env (α : Type) where
  resolve : ARN → IAMPrincipal α
  scps_for_account : Option String → List String
  caller_account_number : String

/-- The fallback account number computed at policy.py line 99:
arn.account_id if truthy, else the caller's account number.  The SCP lookup
on the next source line ignores this value and passes arn.account_id. -/
def scp_fallback_account_number {α : Type} (env : Env α) (arn : ARN) : String :=
  if pyTruthy arn.account_id then arn.account_id.getD "" else env.caller_account_number

/-- The restrict-side candidate list built by PolicyContainer.__init__
(policy.py lines 90-100): the permission boundary document if present, then,
when SCP collection is on, the account SCP texts fetched with arn.account_id
as the lookup key. -/
def restrict_candidates {α : Type} (env : Env α) (arn : ARN) (collect_scps : Bool) :
    List (PolicyInput α) :=
  (match (env.resolve arn).permissions_boundary with
    | some d => [PolicyInput.struct d]
    | none => []) ++
  (if collect_scps then (env.scps_for_account arn.account_id).map PolicyInput.text
   else [])

/-- The state a PolicyContainer holds after construction. -/
structure PolicyContainer (α : Type) where
  policies : List (PolicyDoc α)
  negative_policies : Option (List (PolicyDoc α))
  arn : ARN
deriving DecidableEq

/-- PolicyContainer.__init__ (policy.py lines 79-109): allow-side list is
direct policies then group policies; the restrict side is one merged
document when the candidate list is non-empty and None otherwise. -/
def mkPolicyContainer {α : Type} (env : Env α) (jsonLoads : String → PolicyDoc α)
    (arn : ARN) (collect_scps : Bool) : PolicyContainer α :=
  { policies := get_policy_documents_for_resource (env.resolve arn)
      ++ get_group_policy_documents_for_resource (env.resolve arn)
  , negative_policies :=
      if (restrict_candidates env arn collect_scps).length > 0
      then some [merge_policy_dicts jsonLoads (restrict_candidates env arn collect_scps)]
      else none
  , arn := arn }

/-- The action string built by SimulatedClient.__getattr__ (policy.py lines
155-164): look the operation up in the client's method-to-API mapping (a
missing key raises KeyError) and join the lower-cased service name and the
API name with a colon. -/
def simulated_action (service : String) (mapping : String → Option String)
    (operation : String) : Except PyError String :=
  match mapping operation with
  | some m => Except.ok (pyLower service ++ ":" ++ m)
  | none => Except.error PyError.keyError

/-- The action list that the dispatched method passes to
PolicyContainer.simulate: the single built action string. -/
def simulate_api_actions (service : String) (mapping : String → Option String)
    (operation : String) : Except PyError (List String) :=
  (simulated_action service mapping operation).map (fun a => [a])

/-- Python exception classes relevant to is_region_available. -/
inductive PyExc where
  | clientError
  | genericException
  | otherError
deriving DecidableEq

/-- Outcome of a Python function: an ordinary return value or a raised
exception. -/
inductive PyResult (β : Type) where
  | ret : β → PyResult β
  | exc : PyExc → PyResult β
deriving DecidableEq

/-- The three ways the region-scoped STS GetCallerIdentity call can turn
out: success, a botocore ClientError, or some other exception. -/
inductive CallOutcome where
  | success
  | clientError
  | otherError
deriving DecidableEq

/-- The try/except part of is_region_available (client.py lines 159-163):
return True on success, return False on ClientError, propagate anything
else. -/
def get_caller_identity_try_except (outcome : CallOutcome) : PyResult Bool :=
  match outcome with
  | CallOutcome.success => PyResult.ret true
  | CallOutcome.clientError => PyResult.ret false
  | CallOutcome.otherError => PyResult.exc PyExc.otherError

/-- is_region_available (client.py lines 154-165): the finally clause raises
a bare Exception, which in Python replaces whatever return value or
exception the try/except produced, on every path. -/
def is_region_available (outcome : CallOutcome) : PyResult Bool :=
  match get_caller_identity_try_except outcome with
  | _ => PyResult.exc PyExc.genericException

/-! Concrete fixtures used by witnesses and concrete evaluations.  Statements
are modelled by natural numbers so that distinct documents are easy to tell
apart. -/

/-- A first distinguishable policy document. -/
def docA : PolicyDoc Nat := { Version := "2012-10-17", Statement := [1] }

/-- A second distinguishable policy document. -/
def docB : PolicyDoc Nat := { Version := "2012-10-17", Statement := [2] }

/-- A concrete JSON decoder: the text A decodes to docA, everything else to
docB. -/
def jsonLoadsAB : String → PolicyDoc Nat :=
  fun s => if s = "A" then docA else docB

/-- A principal with a permission boundary and nothing else. -/
def principalWithBoundary : IAMPrincipal Nat :=
  { attached_policies := [], inline_policies := [], groups := none
  , permissions_boundary := some docA }

/-- A principal with no policies, no groups and no boundary (a bare role). -/
def principalBare : IAMPrincipal Nat :=
  { attached_policies := [], inline_policies := [], groups := none
  , permissions_boundary := none }

/-- A group holding one attached policy document. -/
def groupWithPolicy : IAMGroup Nat :=
  { attached_policies := [docA], inline_policies := [] }

/-- A user who belongs to one group that has one attached policy, and has no
direct policies and no boundary. -/
def principalUser : IAMPrincipal Nat :=
  { attached_policies := [], inline_policies := [], groups := some [groupWithPolicy]
  , permissions_boundary := none }

/-- An environment whose SCP lookup distinguishes its key: key None yields
the text A, any concrete account id yields the text B; the caller's own
account number is 999999999999. -/
def envBoundary : Env Nat :=
  { resolve := fun _ => principalWithBoundary
  , scps_for_account := fun a => if a = none then ["A"] else ["B"]
  , caller_account_number := "999999999999" }

/-- Same environment but resolving to the bare principal. -/
def envBare : Env Nat :=
  { resolve := fun _ => principalBare
  , scps_for_account := fun a => if a = none then ["A"] else ["B"]
  , caller_account_number := "999999999999" }

/-- Same environment but resolving to the one-group user. -/
def envUser : Env Nat :=
  { resolve := fun _ => principalUser
  , scps_for_account := fun _ => []
  , caller_account_number := "999999999999" }

/-- An ARN with every field unset (every field None). -/
def arnUnset : ARN := {}

/-- The method-to-API mapping of a concrete ec2 client restricted to the one
operation the scenario uses. -/
def ec2Mapping : String → Option String :=
  fun op => if op = "describe_instances" then some "DescribeInstances" else none

/-- Statement lists concatenate under the merge fold, whatever the
accumulator. -/
theorem merge_policy_dicts_foldl {α : Type} (jsonLoads : String → PolicyDoc α)
    (ps : List (PolicyInput α)) (acc : PolicyDoc α) :
    ps.foldl (merge_step jsonLoads) acc
      = { Version := acc.Version
        , Statement := acc.Statement
            ++ (ps.map (fun p => (normalize_policy jsonLoads p).Statement)).flatten } := by
  induction ps generalizing acc with
  | nil => simp
  | cons p ps ih => simp [merge_step, ih, List.append_assoc]

/-- C1: the restrict-side policy of a constructed Policy Container is None
exactly when the restrictive-candidate list (permission boundary plus
account restrictive policies) is empty, and whenever at least one candidate
exists the container holds exactly the one document obtained by merging the
candidate list; in particular an empty candidate list yields None and the
merge is never applied to it. -/
theorem C1_restrict_policy_none_iff {α : Type} (env : Env α)
    (jsonLoads : String → PolicyDoc α) (arn : ARN) (collect_scps : Bool) :
    ((mkPolicyContainer env jsonLoads arn collect_scps).negative_policies = none
      ↔ restrict_candidates env arn collect_scps = []) ∧
    (restrict_candidates env arn collect_scps ≠ [] →
      (mkPolicyContainer env jsonLoads arn collect_scps).negative_policies
        = some [merge_policy_dicts jsonLoads (restrict_candidates env arn collect_scps)]) := by
  unfold mkPolicyContainer
  cases h : restrict_candidates env arn collect_scps with
  | nil => simp [h]
  | cons x xs => simp [h]

/-- C1 witness: a container built with a permission boundary present holds
exactly the merged candidate document. -/
theorem C1_restrict_policy_none_iff_witness :
    (mkPolicyContainer envBoundary jsonLoadsAB arnUnset true).negative_policies
      = some [merge_policy_dicts jsonLoadsAB (restrict_candidates envBoundary arnUnset true)] :=
  (C1_restrict_policy_none_iff envBoundary jsonLoadsAB arnUnset true).2 (by decide)

/-- C2: evaluation at the failing input.  A user belonging to one group with
one attached policy: the group-policy collector gathers that document into
its local list, yet the function returns the empty list, so the container's
allow-side list is empty instead of containing the group's document. -/
theorem C2_group_policies_dropped :
    collected_group_policies principalUser = [docA] ∧
    get_group_policy_documents_for_resource principalUser = ([] : List (PolicyDoc Nat)) ∧
    (mkPolicyContainer envUser jsonLoadsAB arnUnset false).policies = [] := by
  decide

/-- C3: evaluation at the failing input.  For an identity whose account
field is unset, the fallback account number resolves to the caller's
account, whose SCP lookup would yield the text B (merging to docB); but the
construction passes the raw unset account field, fetches the text A and the
container holds docA. -/
theorem C3_scp_lookup_ignores_fallback :
    scp_fallback_account_number envBare arnUnset = "999999999999" ∧
    envBare.scps_for_account (some "999999999999") = ["B"] ∧
    merge_policy_dicts jsonLoadsAB [PolicyInput.text "B"] = docB ∧
    (mkPolicyContainer envBare jsonLoadsAB arnUnset true).negative_policies = some [docA] ∧
    docA ≠ docB := by
  decide

/-- C4: the merged document's Version is 2012-10-17 and its statement list
is the order-preserving concatenation of the inputs' statement lists (after
decoding text inputs); in particular merging two structured documents
concatenates their statements and merging the empty list yields the document
with Version 2012-10-17 and no statements. -/
theorem C4_merge_concatenates {α : Type} (jsonLoads : String → PolicyDoc α)
    (ps : List (PolicyInput α)) (A B : PolicyDoc α) :
    (merge_policy_dicts jsonLoads ps).Version = "2012-10-17" ∧
    (merge_policy_dicts jsonLoads ps).Statement
      = (ps.map (fun p => (normalize_policy jsonLoads p).Statement)).flatten ∧
    (merge_policy_dicts jsonLoads
        [PolicyInput.struct A, PolicyInput.struct B]).Statement
      = A.Statement ++ B.Statement ∧
    merge_policy_dicts jsonLoads ([] : List (PolicyInput α))
      = { Version := "2012-10-17", Statement := [] } := by
  refine ⟨?_, ?_, ?_, rfl⟩
  · simp [merge_policy_dicts, merge_policy_dicts_foldl]
  · simp [merge_policy_dicts, merge_policy_dicts_foldl]
  · simp [merge_policy_dicts, merge_step, normalize_policy]

/-- C5 counterexample: parsing the 2-part string a:b does not fail with any
error; it succeeds and yields a partially populated reference. -/
theorem C5_short_input_no_error :
    ARN.from_string "a:b" = Except.ok
      { pfx := some "a", partition := some "b", service := none, region := none
      , account_id := none, resource_type := none, resource_id := none } := by
  decide

/-- C5 (amended): for every input string with fewer than 6 colon-delimited
parts, parsing succeeds (no malformed-identity error exists in the code) and
yields the reference populated positionally from the parts, remaining fields
unset. -/
theorem C5_short_input_partial (s : String)
    (h : (pySplit ':' s).length < 6) :
    ARN.from_string s = Except.ok (arn_from_parts (pySplit ':' s)) := by
  have hs : split_arn_string s = Except.ok (pySplit ':' s) := by
    unfold split_arn_string
    rw [if_neg (by omega)]
  unfold ARN.from_string
  rw [hs]
  simp only []
  rw [if_pos (by omega)]

/-- C5 witness: the amended statement evaluated at the concrete input a:b. -/
theorem C5_short_input_partial_witness :
    (pySplit ':' "a:b").length < 6 ∧
    ARN.from_string "a:b" = Except.ok (arn_from_parts (pySplit ':' "a:b")) :=
  ⟨by decide, C5_short_input_partial "a:b" (by decide)⟩

/-- C6: evaluation at the failing input.  A 6-part identity string whose 6th
segment has no slash: the assignment to index 6 of the 6-element parts list
raises IndexError, so parsing does not succeed with an empty resource id. -/
theorem C6_six_parts_no_slash_raises :
    ARN.from_string "arn:aws:iam::123456789012:root"
      = Except.error PyError.indexError := by
  decide

/-- C7: the role identity string parses to exactly the stated seven fields
and renders back to the same string. -/
theorem C7_role_arn_round_trip :
    ARN.from_string "arn:aws:iam::123456789012:role/MyRole" = Except.ok
      { pfx := some "arn", partition := some "aws", service := some "iam"
      , region := some "", account_id := some "123456789012"
      , resource_type := some "role", resource_id := some "MyRole" } ∧
    ARN.toStr
      { pfx := some "arn", partition := some "aws", service := some "iam"
      , region := some "", account_id := some "123456789012"
      , resource_type := some "role", resource_id := some "MyRole" }
      = "arn:aws:iam::123456789012:role/MyRole" := by
  constructor
  · decide
  · decide

/-- C8: whenever the provider mapping sends the invoked operation to an API
name, the dispatched call passes to simulate exactly the one action string
made of the lower-cased service, a colon and that API name. -/
theorem C8_action_identifier (service : String) (mapping : String → Option String)
    (operation m : String) (h : mapping operation = some m) :
    simulate_api_actions service mapping operation
      = Except.ok [pyLower service ++ ":" ++ m] := by
  simp [simulate_api_actions, simulated_action, h, Except.map]

/-- C8 witness: for service ec2 and operation describe_instances mapped to
DescribeInstances, the action sent is exactly ec2:DescribeInstances. -/
theorem C8_action_identifier_witness :
    simulate_api_actions "ec2" ec2Mapping "describe_instances"
      = Except.ok ["ec2:DescribeInstances"] := by
  rw [C8_action_identifier "ec2" ec2Mapping "describe_instances" "DescribeInstances" (by decide)]
  decide

/-- C9: evaluation of the probe.  Because the final cleanup clause raises a
bare Exception on every path, is_region_available raises unconditionally: it
never returns true on success nor false on ClientError, and it masks any
other error with the bare Exception. -/
theorem C9_probe_always_raises (outcome : CallOutcome) :
    is_region_available outcome = PyResult.exc PyExc.genericException := rfl

/-- C10 counterexample: rendering a reference with every field unset yields
the None placeholder in every segment, not empty segments. -/
theorem C10_unset_renders_placeholder :
    ARN.toStr arnUnset = "None:None:None:None:None:None/None" ∧
    ARN.toStr arnUnset ≠ ":::::/" := by
  decide

/-- C10 (amended): rendering produces the segments in the claimed order, but
every unset field is rendered as the text None (the language's rendering of
the null value), i.e. the code's renderer coincides with the spec's segment
renderer instantiated with the placeholder None instead of the empty
segment. -/
theorem C10_render_with_none_placeholder (a : ARN) :
    ARN.toStr a = ARN.spec_render "None" a := by
  unfold ARN.toStr ARN.spec_render
  cases hp : a.pfx <;> cases h2 : a.partition <;> cases h3 : a.service <;>
    cases h4 : a.region <;> cases h5 : a.account_id <;> cases h6 : a.resource_type <;>
    cases h7 : a.resource_id <;> rfl
